import Mathlib

/-!
Verification of the feedback-quality core of the repository
(`src/core/feedback_triage.py`, `src/core/actionability_classifier.py`,
`src/core/confidence_calculator.py`, `src/core/feedback_manager.py`,
`src/core/feedback_manager_sqlite.py`).

Modelling conventions:
* Python floats are modelled as exact rationals (`Rat`); every constant in the
  source (0.2, 0.5, 0.7, ...) is a decimal literal and the claims are stated
  in exact arithmetic.
* Timestamps (`datetime.now().isoformat()`) are modelled as abstract `Nat`
  instants threaded explicitly into each operation; `timedelta(days = d)` is
  modelled as subtracting `d` time units.
* The outbound LLM call of the Actionability Classifier is modelled as an
  explicit oracle argument of type `Judgment`; a service/parse failure is the
  `Except.error` case.
* Python strings are sequences of unicode code points; `len`, slicing and
  `str.lower` correspond to `List Char` length, `take` and `Char.toLower`
  (the texts involved are ASCII-cased exactly as Python cases them).
-/

namespace FeedbackCore

/-- The whitespace characters recognised by Python's `str.strip` / `str.split`
and by the regex class `\s` on the ASCII range. -/
def isPySpace (c : Char) : Bool :=
  c = ' ' || c = '\t' || c = '\n' || c = '\r' || c = '\x0b' || c = '\x0c'

/-- Python's `not text or not text.strip()`: the string is empty or every
character is whitespace. -/
def wsOnly (s : String) : Bool :=
  s.toList.all isPySpace

/-- Python's `str.lower()` on the ASCII range (the only range the statuses
use), character by character. -/
def pyLower (s : String) : String :=
  String.mk (s.toList.map Char.toLower)

/-- Python's `str.split()` with no separator: split on runs of whitespace,
discarding empty tokens. -/
def pySplit (l : List Char) : List (List Char) :=
  match l with
  | [] => []
  | c :: t =>
    if isPySpace c then pySplit t
    else
      match pySplit t with
      | [] => [[c]]
      | w :: ws =>
        match t with
        | [] => [[c]]
        | c2 :: _ => if isPySpace c2 then [c] :: w :: ws else (c :: w) :: ws

/-- Number of whitespace-delimited tokens of a Python string:
`len(text.split())`. -/
def wordCount (s : String) : Nat :=
  (pySplit s.toList).length

/-- Result of the LLM judgment delegated to by the Actionability Classifier:
the parsed `(is_actionable, confidence, reason)` triple, or an error when the
service call or the JSON parse fails. -/
def Judgment : Type :=
  String → String → Int → Except String (Bool × Rat × String)

/-- Shallow embedding of `classify_feedback_actionability`
(`src/core/actionability_classifier.py`, lines 21-138). The `judge` argument
models the OpenAI chat-completion call together with the JSON parsing of its
answer. -/
def classify_feedback_actionability (judge : Judgment)
    (feedback_text : String) (category : String) (rating : Int) :
    Bool × Rat × String :=
  if wsOnly feedback_text then
    (false, 0, "Empty feedback")
  else
    let word_count := wordCount feedback_text
    if word_count < 2 then
      (false, 1/10, "Too short - likely vague")
    else
      match judge feedback_text category rating with
      | .ok r => r
      | .error _ =>
        if word_count ≥ 5 then
          (true, 1/2, "Fallback: " ++ toString word_count ++ " words - probably actionable")
        else
          (false, 1/2, "Fallback: " ++ toString word_count ++ " words - probably vague")

/-- Result record of the triage decision (`evaluate_feedback_quality`). -/
structure TriageResult where
  status : String
  actionability_score : Rat
  reason : String
  lab_entry_date : Option Nat
  deriving DecidableEq, Repr

/-- Shallow embedding of `evaluate_feedback_quality`
(`src/core/feedback_triage.py`, lines 17-88). `now` models
`datetime.now().isoformat()`. -/
def evaluate_feedback_quality (judge : Judgment) (now : Nat)
    (score : Int) (text : String) (category : String) : TriageResult :=
  if category = "Strategic Miss / DNA Mismatch" then
    { status := "PENDING_REFINEMENT"
      actionability_score := 0
      reason := "Strategic Miss - Mandatory Lab review (overrides all other rules)"
      lab_entry_date := some now }
  else if score = 5 then
    { status := "APPROVED"
      actionability_score := 1
      reason := "Score 5 - Auto-approved (high satisfaction)"
      lab_entry_date := none }
  else
    let r := classify_feedback_actionability judge text category score
    if r.1 then
      { status := "APPROVED"
        actionability_score := r.2.1
        reason := "Actionable - " ++ r.2.2
        lab_entry_date := none }
    else
      { status := "PENDING_REFINEMENT"
        actionability_score := r.2.1
        reason := "Vague - " ++ r.2.2
        lab_entry_date := some now }

/-- The fields of a feedback record read by the Confidence Scorer
(`feedback_data` in `src/core/confidence_calculator.py`). -/
structure Feedback where
  rating : Int
  category : String
  raw_text_feedback : String
  persona : String
  platform : String
  deriving DecidableEq, Repr

/-- Shallow embedding of `calc_context_score`
(`src/core/confidence_calculator.py`, lines 48-88). -/
def calc_context_score (f : Feedback) : Rat :=
  if wsOnly f.raw_text_feedback then
    1/5
  else
    let score : Rat := 1/2
    let score := if f.category ≠ "Other" then score + 1/5 else score
    let score := if f.raw_text_feedback.length > 20 then score + 1/5 else score
    let score := if f.rating = 1 ∨ f.rating = 5 then score + 1/10 else score
    min score 1

/-- The history filter of `calc_consistency_score`: same `persona` and same
`platform` as the current feedback. -/
def sameContext (f g : Feedback) : Bool :=
  g.persona = f.persona && g.platform = f.platform

/-- Shallow embedding of `calc_consistency_score`
(`src/core/confidence_calculator.py`, lines 91-144). -/
def calc_consistency_score (f : Feedback) (historical_data : List Feedback) : Rat :=
  if historical_data = [] then
    7/10
  else
    let same_context := historical_data.filter (sameContext f)
    if same_context = [] then
      7/10
    else
      let avg_rating : Rat :=
        ((same_context.map (fun h => (h.rating : Rat))).sum) / same_context.length
      let diff := |(f.rating : Rat) - avg_rating|
      if diff ≤ 1 then 1
      else if diff ≤ 2 then 3/5
      else 3/10

/-!
### Sanitization (`sanitize_feedback`, `src/core/feedback_manager.py` 66-117)

The source checks the truncated text against nine case-insensitive regex
patterns and then rewrites PII with `re.sub`. The patterns are simple enough
that Python's leftmost-match backtracking semantics determinise:

* each injection pattern is a sequence of literal words separated by `\s+`,
  so a match exists iff some suffix of the lower-cased text starts with the
  word sequence (the optional trailing `s` of `instructions?` cannot affect
  existence of a match);
* in the phone pattern `\d{3}[-.]?\d{3}[-.]?\d{4}` and the card pattern
  `\b\d{4}[\s-]?\d{4}[\s-]?\d{4}[\s-]?\d{4}\b` a separator character is never
  a digit, so the greedy `[-.]?`/`[\s-]?` never needs to backtrack: leaving a
  present separator unconsumed immediately fails on the digit that must
  follow;
* in the e-mail pattern `[a-zA-Z0-9._%+-]+@[a-zA-Z0-9.-]+\.[a-zA-Z]{2,}`
  the local class does not contain `@`, so the greedy `+` is the maximal run;
  the domain class contains `.`, so `[a-zA-Z0-9.-]+\.` backtracks from the
  maximal domain run downwards — the first (rightmost) dot position followed
  by ≥ 2 ASCII letters wins.

`re.sub` scans left to right: at each position it tries a match; on success
it emits the placeholder and resumes after the match, otherwise it emits the
character and advances one. The scanners below use fuel equal to the input
length, which each step consumes (every pattern matches at least one
character), so the fuel never runs out. Character classes are modelled on
the ASCII range the placeholders and patterns use.
-/

/-- Lower-case a character list (`re.IGNORECASE` over the ASCII range). -/
def lcList (l : List Char) : List Char :=
  l.map Char.toLower

/-- Match a literal segment at the head, returning the remainder. -/
def takeSeg : List Char → List Char → Option (List Char)
  | [], l => some l
  | _ :: _, [] => none
  | p :: ps, c :: cs => if c = p then takeSeg ps cs else none

/-- Match `\s+` at the head (one or more whitespace), returning the
remainder after the maximal run; the following literal word starts with a
non-space character, so greediness never needs to backtrack. -/
def wsPlus : List Char → Option (List Char)
  | [] => none
  | c :: cs => if isPySpace c then some (cs.dropWhile fun d => isPySpace d) else none

/-- Match a sequence of literal words separated by `\s+`, starting exactly
at the head of the list. -/
def matchWords : List (List Char) → List Char → Bool
  | [], _ => true
  | [w], l => (takeSeg w l).isSome
  | w :: w2 :: ws, l =>
    match takeSeg w l with
    | none => false
    | some r =>
      match wsPlus r with
      | none => false
      | some r2 => matchWords (w2 :: ws) r2

/-- Does `p` hold of some suffix of the list (i.e. does a pattern match at
some position, as `re.search` asks)? -/
def existsSuffix (p : List Char → Bool) : List Char → Bool
  | [] => p []
  | c :: t => p (c :: t) || existsSuffix p t

/-- The nine prompt-injection patterns of `sanitize_feedback`, as word
sequences; the optional `s` of `instructions?` is dropped because it does not
change whether a match exists. -/
def injection_patterns : List (List String) :=
  [["ignore", "previous"], ["new", "instruction"], ["system", "prompt"],
   ["forget", "everything"], ["override"], ["disregard"],
   ["reset", "instruction"], ["you", "are", "now"], ["act", "as", "if"]]

/-- Does any injection pattern match the text, case-insensitively? -/
def hasInjection (l : List Char) : Bool :=
  injection_patterns.any fun ws =>
    existsSuffix (matchWords (ws.map String.toList)) (lcList l)

/-- Match exactly `n` ASCII digits, returning the remainder. -/
def digitN : Nat → List Char → Option (List Char)
  | 0, l => some l
  | _ + 1, [] => none
  | n + 1, c :: cs => if c.isDigit then digitN n cs else none

/-- Consume one separator character if present (`[-.]?` / `[\s-]?`); see the
section comment for why this determinisation is exact. -/
def optSepP (p : Char → Bool) : List Char → List Char
  | [] => []
  | c :: t => if p c then t else c :: t

/-- Match the phone pattern `\d{3}[-.]?\d{3}[-.]?\d{4}` at the head,
returning the remainder after the match. -/
def matchPhone (l : List Char) : Option (List Char) :=
  (digitN 3 l).bind fun r1 =>
  (digitN 3 (optSepP (fun c => c = '-' || c = '.') r1)).bind fun r2 =>
  digitN 4 (optSepP (fun c => c = '-' || c = '.') r2)

/-- Python's `\w` on the ASCII range: letters, digits, underscore. -/
def isWordChar (c : Char) : Bool :=
  c.isAlphanum || c = '_'

/-- Match the card pattern `\b\d{4}[\s-]?\d{4}[\s-]?\d{4}[\s-]?\d{4}\b` at the
head; `prevIsWord` says whether the character before the head is a word
character (for the leading boundary), and the trailing boundary requires the
next character to be a non-word character or the end. -/
def matchCard (prevIsWord : Bool) (l : List Char) : Option (List Char) :=
  if prevIsWord then none
  else
    (digitN 4 l).bind fun r1 =>
    (digitN 4 (optSepP (fun c => isPySpace c || c = '-') r1)).bind fun r2 =>
    (digitN 4 (optSepP (fun c => isPySpace c || c = '-') r2)).bind fun r3 =>
    (digitN 4 (optSepP (fun c => isPySpace c || c = '-') r3)).bind fun r4 =>
    match r4 with
    | [] => some []
    | c :: _ => if isWordChar c then none else some r4

/-- Characters of the local part `[a-zA-Z0-9._%+-]` of the e-mail pattern. -/
def isLocalChar (c : Char) : Bool :=
  c.isAlphanum || c = '.' || c = '_' || c = '%' || c = '+' || c = '-'

/-- Characters of the domain part `[a-zA-Z0-9.-]` of the e-mail pattern. -/
def isDomainChar (c : Char) : Bool :=
  c.isAlphanum || c = '.' || c = '-'

/-- Try to place the final `\.[a-zA-Z]{2,}` of the e-mail pattern after `k`
domain characters: requires a dot at index `k` and a maximal ASCII-letter run
of length ≥ 2 after it; returns the remainder after the whole match. -/
def emailTldAt (r2 : List Char) (k : Nat) : Option (List Char) :=
  match r2.get? k with
  | some c =>
    if c = '.' then
      let run := (r2.drop (k + 1)).takeWhile Char.isAlpha
      if 2 ≤ run.length then some (r2.drop (k + 1 + run.length)) else none
    else none
  | none => none

/-- Backtrack the greedy domain run downwards: try the dot position at
`k, k-1, ..., 1` and take the first that completes the pattern. -/
def emailDotDescend (r2 : List Char) : Nat → Option (List Char)
  | 0 => none
  | k + 1 =>
    match emailTldAt r2 (k + 1) with
    | some r => some r
    | none => emailDotDescend r2 k

/-- Match the e-mail pattern `[a-zA-Z0-9._%+-]+@[a-zA-Z0-9.-]+\.[a-zA-Z]{2,}`
at the head, returning the remainder after the match. -/
def matchEmail (l : List Char) : Option (List Char) :=
  let loc := l.takeWhile isLocalChar
  if loc.length = 0 then none
  else
    match l.drop loc.length with
    | '@' :: r2 =>
      let m := (r2.takeWhile isDomainChar).length
      if m = 0 then none else emailDotDescend r2 (m - 1)
    | _ => none

/-- `re.sub` scan for a matcher without boundary context: at each position,
replace a match and resume after it, or emit the character and advance. -/
def reSubScan (m : List Char → Option (List Char)) (repl : List Char) :
    Nat → List Char → List Char
  | 0, l => l
  | _ + 1, [] => []
  | fuel + 1, c :: t =>
    match m (c :: t) with
    | some rest => repl ++ reSubScan m repl fuel rest
    | none => c :: reSubScan m repl fuel t

/-- `re.sub` with fuel equal to the input length (sufficient: every matchment
consumes at least one character). -/
def reSub (m : List Char → Option (List Char)) (repl : List Char)
    (l : List Char) : List Char :=
  reSubScan m repl l.length l

/-- `re.sub` scan for the card matcher, tracking whether the previous
character of the original text is a word character; after a match the
previous character is the final digit of the match, hence a word
character. -/
def reSubScanB (m : Bool → List Char → Option (List Char)) (repl : List Char) :
    Nat → Bool → List Char → List Char
  | 0, _, l => l
  | _ + 1, _, [] => []
  | fuel + 1, pw, c :: t =>
    match m pw (c :: t) with
    | some rest => repl ++ reSubScanB m repl fuel true rest
    | none => c :: reSubScanB m repl fuel (isWordChar c) t

/-- Phone-number redaction:
`re.sub(r'\d{3}[-.]?\d{3}[-.]?\d{4}', '[PHONE_REDACTED]', text)`. -/
def subPhone (l : List Char) : List Char :=
  reSub matchPhone "[PHONE_REDACTED]".toList l

/-- E-mail redaction: `re.sub(email_pattern, '[EMAIL_REDACTED]', text)`. -/
def subEmail (l : List Char) : List Char :=
  reSub matchEmail "[EMAIL_REDACTED]".toList l

/-- Card redaction: `re.sub(card_pattern, '[CARD_REDACTED]', text)`; the scan
starts at the beginning of the string, where the leading `\b` holds. -/
def subCard (l : List Char) : List Char :=
  reSubScanB matchCard "[CARD_REDACTED]".toList l.length false l

/-- Python's `str.strip()`: drop leading and trailing whitespace. -/
def pyStrip (l : List Char) : List Char :=
  ((l.dropWhile isPySpace).reverse.dropWhile isPySpace).reverse

/-- Shallow embedding of `sanitize_feedback`
(`src/core/feedback_manager.py`, lines 66-117): empty/whitespace-only text
becomes `""`; the text is truncated to 1000 characters; if any injection
pattern matches, the whole text is replaced by the fixed placeholder;
otherwise phone, e-mail and card patterns are redacted in place and the
result is stripped. -/
def sanitize_feedback (text : String) : String :=
  if wsOnly text then ""
  else
    let t := text.toList.take 1000
    if hasInjection t then "[SANITIZED: Suspicious content removed]"
    else String.mk (pyStrip (subCard (subEmail (subPhone t))))

/-- Does the phone/e-mail matcher match at some position of the text? -/
def hasMatch (m : List Char → Option (List Char)) (l : List Char) : Bool :=
  existsSuffix (fun s => (m s).isSome) l

/-- Does the card pattern match at some position of the text (ignoring the
boundary flag, which can only forbid further matches)? -/
def hasCardMatch (l : List Char) : Bool :=
  existsSuffix (fun s => (matchCard false s).isSome) l

/-!
### The feedback store
(`src/core/feedback_manager.py`; the SQLite twin `feedback_manager_sqlite.py`
has the same status/`reviewed_at`/aging logic). The store is modelled as a
list of rows; an insert appends, an update maps over the rows.
-/

/-- A persisted feedback record, with the columns of the `feedback` table.
Timestamps are `Nat` instants (one unit per day for the aging arithmetic);
JSONB payloads are kept opaque. Defaults exist only to keep concrete test
rows short. -/
structure FeedbackRow where
  id : Nat := 0
  post_id : String := ""
  content : String := ""
  rating : Int := 3
  category : String := "Other"
  raw_text_feedback : String := ""
  client_id : String := ""
  agent_type : String := ""
  persona : String := ""
  platform : String := ""
  archetype : String := ""
  rag_queries_used : List String := []
  metadata : List (String × String) := []
  status : String := "pending"
  confidence_score : Rat := 0
  refinement_data : Option String := none
  lab_entry_date : Option Nat := none
  actionability_score : Option Rat := none
  created_at : Nat := 0
  reviewed_at : Option Nat := none
  notes : Option String := none
  deriving DecidableEq, Repr

/-- The fixed status set (`valid_statuses` in `update_status`, and the status
enum surface of the spec). -/
def valid_statuses : List String :=
  ["pending", "approved", "rejected", "flagged",
   "pending_refinement", "skipped", "discarded"]

/-- Modelled from the spec: the status constraint of the `feedback` table.
The table definition itself is not under `src/` (the SQLite schema lives in
`feedback/schema.sql` and the Supabase table is managed in the dashboard);
per the data-model invariant "`status ∈` the fixed set above; any write with
a different value fails validation", an insert whose status is outside the
fixed set fails with a constraint violation — which `save_feedback` surfaces
as a `ValueError` ("Invalid feedback data (constraint violation)") — and
persists nothing. -/
def insertRow (store : List FeedbackRow) (row : FeedbackRow) :
    Except String (List FeedbackRow) :=
  if valid_statuses.contains row.status then .ok (store ++ [row])
  else .error "Invalid feedback data (constraint violation)"

/-- The caller-supplied arguments of `save_feedback`
(`src/core/feedback_manager.py`, lines 120-140), bundled; `status = none`
models the default `status=None`. -/
structure SaveInput where
  post_id : String := ""
  content : String := ""
  rating : Int := 3
  category : String := "Other"
  raw_text_feedback : String := ""
  client_id : String := ""
  agent_type : String := ""
  persona : String := ""
  platform : String := ""
  archetype : String := ""
  rag_queries_used : List String := []
  metadata : List (String × String) := []
  confidence_score : Rat := 0
  refinement_data : Option String := none
  lab_entry_date : Option Nat := none
  actionability_score : Option Rat := none
  status : Option String := none
  deriving Repr

/-- The status `save_feedback` persists (lines 178-189): the explicit status
lower-cased when one is passed, otherwise derived from the confidence
score. -/
def savedStatus (a : SaveInput) : String :=
  match a.status with
  | none =>
    if a.confidence_score ≥ 8/10 then "approved"
    else if a.confidence_score ≥ 5/10 then "pending"
    else "flagged"
  | some s => pyLower s

/-- The row `save_feedback` inserts (lines 191-217): sanitized text, computed
status, `created_at = now`, fresh autoincrement id; `reviewed_at` and
`notes` are not part of the insert and default to NULL. -/
def savedRow (store : List FeedbackRow) (a : SaveInput) (now : Nat) : FeedbackRow :=
  { id := store.length
    post_id := a.post_id
    content := a.content
    rating := a.rating
    category := a.category
    raw_text_feedback := sanitize_feedback a.raw_text_feedback
    client_id := a.client_id
    agent_type := a.agent_type
    persona := a.persona
    platform := a.platform
    archetype := a.archetype
    rag_queries_used := a.rag_queries_used
    metadata := a.metadata
    status := savedStatus a
    confidence_score := a.confidence_score
    refinement_data := a.refinement_data
    lab_entry_date := a.lab_entry_date
    actionability_score := a.actionability_score
    created_at := now
    reviewed_at := none
    notes := none }

/-- Shallow embedding of `save_feedback`
(`src/core/feedback_manager.py`, lines 120-235): returns the new store and
the id of the inserted record, or the validation error of the constraint
check with the store unchanged. -/
def save_feedback (store : List FeedbackRow) (a : SaveInput) (now : Nat) :
    Except String (List FeedbackRow × Nat) :=
  match insertRow store (savedRow store a now) with
  | .ok store2 => .ok (store2, store.length)
  | .error e => .error e

/-- Shallow embedding of `update_status`
(`src/core/feedback_manager.py`, lines 327-386): lower-cases the new status,
rejects it if outside the fixed set, otherwise sets `status`,
`reviewed_at = now` and `notes` on the addressed row, merging
`refinement_data` only when provided. -/
def update_status (store : List FeedbackRow) (feedback_id : Nat)
    (new_status : String) (notes : Option String)
    (refinement_data : Option String) (now : Nat) :
    Except String (List FeedbackRow) :=
  let ns := pyLower new_status
  if valid_statuses.contains ns then
    .ok (store.map fun r =>
      if r.id = feedback_id then
        { r with
          status := ns
          reviewed_at := some now
          notes := notes
          refinement_data :=
            match refinement_data with
            | some d => some d
            | none => r.refinement_data }
      else r)
  else .error ("Invalid status: " ++ ns)

/-- The rows `auto_age_lab_items` touches: status `pending_refinement` and
`lab_entry_date < cutoff`; a NULL `lab_entry_date` never satisfies the SQL
comparison, which the `none` case mirrors. -/
def agePred (cutoff : Nat) (r : FeedbackRow) : Bool :=
  r.status = "pending_refinement" &&
    (match r.lab_entry_date with
     | some d => d < cutoff
     | none => false)

/-- Shallow embedding of `auto_age_lab_items`
(`src/core/feedback_manager.py`, lines 522-568): stale lab rows get status
`skipped` and an explanatory note (and nothing else changes on them); the
returned count is the number of rows matched. `cutoff = now − days_threshold`
models `datetime.now() - timedelta(days=days_threshold)` with one time unit
per day. -/
def auto_age_lab_items (store : List FeedbackRow) (days_threshold : Nat)
    (now : Nat) : List FeedbackRow × Nat :=
  let cutoff := now - days_threshold
  (store.map fun r =>
      if agePred cutoff r then
        { r with
          status := "skipped"
          notes := some ("Auto-aged: No refinement after "
            ++ toString days_threshold ++ " days") }
      else r,
   (store.filter (agePred cutoff)).length)

/-- The filter of `get_lab_queue`: same client, status `pending_refinement`,
and the agent type when one is given. -/
def labPred (client_id : String) (agent_type : Option String)
    (r : FeedbackRow) : Bool :=
  r.client_id = client_id && r.status = "pending_refinement" &&
    (match agent_type with
     | some a => r.agent_type = a
     | none => true)

/-- The `ORDER BY lab_entry_date ASC, created_at ASC` key: lexicographic on
(lab date present?, lab date, created date); a NULL `lab_entry_date` sorts
last, as in Postgres ascending order. -/
def labKey (r : FeedbackRow) : Lex (Nat × Lex (Nat × Nat)) :=
  toLex ((match r.lab_entry_date with | some _ => 0 | none => 1),
    toLex ((match r.lab_entry_date with | some d => d | none => 0),
      r.created_at))

/-- Non-strict queue order: ascending `labKey`. -/
def labLe (a b : FeedbackRow) : Prop :=
  labKey a ≤ labKey b

/-- Strict queue order, used to show the sorted queue is unique when the
keys are distinct. -/
def labLt (a b : FeedbackRow) : Prop :=
  labKey a < labKey b

instance : DecidableRel labLe :=
  fun a b => inferInstanceAs (Decidable (labKey a ≤ labKey b))

instance : IsTotal FeedbackRow labLe :=
  ⟨fun a b => le_total (labKey a) (labKey b)⟩

instance : IsTrans FeedbackRow labLe :=
  ⟨fun _ _ _ h1 h2 => le_trans h1 h2⟩

instance : IsAntisymm FeedbackRow labLt :=
  ⟨fun _ _ h1 h2 => absurd (lt_trans h1 h2) (lt_irrefl _)⟩

/-- Shallow embedding of `get_lab_queue`
(`src/core/feedback_manager.py`, lines 479-519): filter, order ascending by
`(lab_entry_date, created_at)`, truncate to `limit`. The database promises
some sorted arrangement; the model realises it with insertion sort. -/
def get_lab_queue (store : List FeedbackRow) (client_id : String)
    (agent_type : Option String) (limit : Nat) : List FeedbackRow :=
  ((store.filter (labPred client_id agent_type)).insertionSort labLe).take limit

/-- C1: for every input to `evaluate_feedback_quality` whose category is
"Strategic Miss / DNA Mismatch" — any score (including 5) and any text
(including the empty one) — the status is `pending_refinement` (the code
returns the token in upper case; statuses are case-normalised at rest), the
actionability score is exactly 0, the lab entry date is the current time, and
the result does not depend on the Actionability Classifier's judgment oracle
(the classifier is never consulted). -/
theorem triage_strategic_miss_priority (judge judge2 : Judgment) (now : Nat)
    (score : Int) (text : String) :
    pyLower (evaluate_feedback_quality judge now score text
        "Strategic Miss / DNA Mismatch").status = "pending_refinement" ∧
    (evaluate_feedback_quality judge now score text
        "Strategic Miss / DNA Mismatch").actionability_score = 0 ∧
    (evaluate_feedback_quality judge now score text
        "Strategic Miss / DNA Mismatch").lab_entry_date = some now ∧
    evaluate_feedback_quality judge now score text "Strategic Miss / DNA Mismatch" =
      evaluate_feedback_quality judge2 now score text "Strategic Miss / DNA Mismatch" := by
  exact ⟨rfl, rfl, rfl, rfl⟩

/-- C2: for every triage input whose category is not
"Strategic Miss / DNA Mismatch": rating 5 yields `approved` with score 1 and
a null lab entry date regardless of the text; any other rating defers to the
Actionability Classifier — actionable yields `approved` with null lab entry
date, not actionable yields `pending_refinement` with lab entry date = now,
each carrying the classifier's confidence as the actionability score. -/
theorem triage_non_strategic_routing (judge : Judgment) (now : Nat)
    (score : Int) (text category : String)
    (hcat : category ≠ "Strategic Miss / DNA Mismatch") :
    (score = 5 →
      pyLower (evaluate_feedback_quality judge now score text category).status
          = "approved" ∧
      (evaluate_feedback_quality judge now score text category).actionability_score = 1 ∧
      (evaluate_feedback_quality judge now score text category).lab_entry_date = none) ∧
    (score ≠ 5 →
      ((classify_feedback_actionability judge text category score).1 = true →
        pyLower (evaluate_feedback_quality judge now score text category).status
            = "approved" ∧
        (evaluate_feedback_quality judge now score text category).lab_entry_date = none ∧
        (evaluate_feedback_quality judge now score text category).actionability_score
            = (classify_feedback_actionability judge text category score).2.1) ∧
      ((classify_feedback_actionability judge text category score).1 = false →
        pyLower (evaluate_feedback_quality judge now score text category).status
            = "pending_refinement" ∧
        (evaluate_feedback_quality judge now score text category).lab_entry_date = some now ∧
        (evaluate_feedback_quality judge now score text category).actionability_score
            = (classify_feedback_actionability judge text category score).2.1)) := by
  constructor
  · intro h5
    have e : evaluate_feedback_quality judge now score text category =
        { status := "APPROVED", actionability_score := 1,
          reason := "Score 5 - Auto-approved (high satisfaction)",
          lab_entry_date := none } := by
      simp [evaluate_feedback_quality, hcat, h5]
    rw [e]
    exact ⟨rfl, rfl, rfl⟩
  · intro h5
    constructor
    · intro hact
      have e : evaluate_feedback_quality judge now score text category =
          { status := "APPROVED",
            actionability_score :=
              (classify_feedback_actionability judge text category score).2.1,
            reason := "Actionable - "
              ++ (classify_feedback_actionability judge text category score).2.2,
            lab_entry_date := none } := by
        simp [evaluate_feedback_quality, hcat, h5, hact]
      rw [e]
      exact ⟨rfl, rfl, rfl⟩
    · intro hact
      have e : evaluate_feedback_quality judge now score text category =
          { status := "PENDING_REFINEMENT",
            actionability_score :=
              (classify_feedback_actionability judge text category score).2.1,
            reason := "Vague - "
              ++ (classify_feedback_actionability judge text category score).2.2,
            lab_entry_date := some now } := by
        simp [evaluate_feedback_quality, hcat, h5, hact]
      rw [e]
      exact ⟨rfl, rfl, rfl⟩

/-- Witness for C2 at a concrete input: category "Tone", rating 2, a
four-word text, and an oracle that judges it actionable with confidence
9/10; triage approves with null lab entry date and score 9/10. -/
theorem triage_non_strategic_routing_witness :
    pyLower (evaluate_feedback_quality (fun _ _ _ => .ok (true, 9/10, "specific"))
        7 2 "needs a stronger hook" "Tone").status = "approved" ∧
    (evaluate_feedback_quality (fun _ _ _ => .ok (true, 9/10, "specific"))
        7 2 "needs a stronger hook" "Tone").lab_entry_date = none ∧
    (evaluate_feedback_quality (fun _ _ _ => .ok (true, 9/10, "specific"))
        7 2 "needs a stronger hook" "Tone").actionability_score = 9/10 := by
  have h := triage_non_strategic_routing
    (fun _ _ _ => .ok (true, 9/10, "specific")) 7 2 "needs a stronger hook" "Tone"
    (by decide)
  have h2 := (h.2 (by decide)).1 (by decide)
  exact ⟨h2.1, h2.2.1, h2.2.2.trans rfl⟩

/-- C5: `calc_context_score` returns exactly 1/5 on empty or whitespace-only
feedback text, regardless of category and rating; otherwise it returns
min 1 (1/2 + 1/5·[category ≠ "Other"] + 1/5·[length > 20] +
1/10·[rating ∈ {1,5}]). -/
theorem context_score_spec (f : Feedback) :
    (wsOnly f.raw_text_feedback = true → calc_context_score f = 1/5) ∧
    (wsOnly f.raw_text_feedback = false →
      calc_context_score f =
        min 1 (1/2 + (if f.category ≠ "Other" then (1:Rat)/5 else 0)
                   + (if f.raw_text_feedback.length > 20 then (1:Rat)/5 else 0)
                   + (if f.rating = 1 ∨ f.rating = 5 then (1:Rat)/10 else 0))) := by
  constructor
  · intro h
    simp [calc_context_score, h]
  · intro h
    by_cases h1 : f.category = "Other" <;>
      by_cases h2 : f.raw_text_feedback.length > 20 <;>
        by_cases h3 : f.rating = 1 ∨ f.rating = 5 <;>
          simp [calc_context_score, h, h1, h2, h3] <;> norm_num [min_def]

/-- Witness for C5: a record with whitespace-only text scores exactly 1/5,
and a fully-bonused record (specific category, long text, extreme rating)
scores exactly 1. -/
theorem context_score_spec_witness :
    calc_context_score ⟨3, "Tone", " \t ", "p", "LinkedIn"⟩ = 1/5 ∧
    calc_context_score
      ⟨5, "Tone", "the opening line is far too formal", "p", "LinkedIn"⟩ = 1 := by
  constructor
  · exact (context_score_spec ⟨3, "Tone", " \t ", "p", "LinkedIn"⟩).1 (by decide)
  · have h := (context_score_spec
      ⟨5, "Tone", "the opening line is far too formal", "p", "LinkedIn"⟩).2 (by decide)
    rw [h]
    norm_num [min_def, show "Tone" ≠ "Other" from by decide,
      show (20 : Nat) < "the opening line is far too formal".length from by decide]

/-- C6: `calc_consistency_score` returns 7/10 when the history is empty or
has no record with the same persona and platform; otherwise, with avgRating
the mean rating of the matching subset and diff = |rating − avgRating|, it
returns 1 when diff ≤ 1, 3/5 when 1 < diff ≤ 2, and 3/10 when diff > 2. -/
theorem consistency_score_spec (f : Feedback) (hist : List Feedback) :
    (hist = [] → calc_consistency_score f hist = 7/10) ∧
    (hist.filter (sameContext f) = [] →
      calc_consistency_score f hist = 7/10) ∧
    (∀ same, same = hist.filter (sameContext f) →
      same ≠ [] →
      ∀ diff, diff = |(f.rating : Rat) -
          ((same.map fun h => (h.rating : Rat)).sum) / same.length| →
      (diff ≤ 1 → calc_consistency_score f hist = 1) ∧
      (1 < diff → diff ≤ 2 → calc_consistency_score f hist = 3/5) ∧
      (2 < diff → calc_consistency_score f hist = 3/10)) := by
  refine ⟨?_, ?_, ?_⟩
  · intro h
    simp [calc_consistency_score, h]
  · intro h
    by_cases hh : hist = []
    · simp [calc_consistency_score, hh]
    · simp [calc_consistency_score, hh, h]
  · intro same hsame hne diff hdiff
    have hh : hist ≠ [] := by
      intro h0
      apply hne
      rw [hsame, h0]
      rfl
    subst hsame
    subst hdiff
    refine ⟨?_, ?_, ?_⟩
    · intro hle
      simp [calc_consistency_score, hh, hne, hle]
    · intro hgt hle
      simp [calc_consistency_score, hh, hne, hle, not_le.mpr hgt]
    · intro hgt
      simp [calc_consistency_score, hh, hne,
        not_le.mpr (lt_trans one_lt_two hgt), not_le.mpr hgt]

/-- Witness for C6: a rating-5 record against a matching one-record history
of rating 4 (diff = 1) scores 1; against matching history averaging rating 1
(diff = 4 > 2) it scores 3/10; with no matching history it scores 7/10. -/
theorem consistency_score_spec_witness :
    calc_consistency_score ⟨5, "Tone", "t", "p", "LinkedIn"⟩
      [⟨4, "Tone", "x", "p", "LinkedIn"⟩] = 1 ∧
    calc_consistency_score ⟨5, "Tone", "t", "p", "LinkedIn"⟩
      [⟨1, "Tone", "x", "p", "LinkedIn"⟩] = 3/10 ∧
    calc_consistency_score ⟨5, "Tone", "t", "p", "LinkedIn"⟩
      [⟨1, "Tone", "x", "q", "Facebook"⟩] = 7/10 := by
  refine ⟨?_, ?_, ?_⟩
  · exact (((consistency_score_spec ⟨5, "Tone", "t", "p", "LinkedIn"⟩
      [⟨4, "Tone", "x", "p", "LinkedIn"⟩]).2.2
      [⟨4, "Tone", "x", "p", "LinkedIn"⟩] (by decide) (by decide) 1
      (by simp; norm_num)).1 (by norm_num))
  · exact (((consistency_score_spec ⟨5, "Tone", "t", "p", "LinkedIn"⟩
      [⟨1, "Tone", "x", "p", "LinkedIn"⟩]).2.2
      [⟨1, "Tone", "x", "p", "LinkedIn"⟩] (by decide) (by decide) 4
      (by simp; norm_num)).2.2 (by norm_num))
  · exact ((consistency_score_spec ⟨5, "Tone", "t", "p", "LinkedIn"⟩
      [⟨1, "Tone", "x", "q", "Facebook"⟩]).2.1 (by decide))

/-- C7: `classify_feedback_actionability` returns (false, 0, _) on empty or
whitespace-only text and (false, 1/10, _) on any other text with fewer than
2 whitespace-delimited tokens, in both cases independently of the judgment
oracle (the service is never consulted); and when the oracle fails the error
is not propagated: the result is the fallback (true, 1/2, _) when the word
count is ≥ 5 and (false, 1/2, _) otherwise. -/
theorem classifier_spec (judge : Judgment) (text category : String) (rating : Int) :
    (wsOnly text = true →
      classify_feedback_actionability judge text category rating
        = (false, 0, "Empty feedback") ∧
      ∀ judge2, classify_feedback_actionability judge text category rating
        = classify_feedback_actionability judge2 text category rating) ∧
    (wsOnly text = false → wordCount text < 2 →
      classify_feedback_actionability judge text category rating
        = (false, 1/10, "Too short - likely vague") ∧
      ∀ judge2, classify_feedback_actionability judge text category rating
        = classify_feedback_actionability judge2 text category rating) ∧
    (wsOnly text = false → 2 ≤ wordCount text →
      ∀ e, judge text category rating = .error e →
      classify_feedback_actionability judge text category rating
        = if 5 ≤ wordCount text then
            (true, 1/2, "Fallback: " ++ toString (wordCount text)
              ++ " words - probably actionable")
          else
            (false, 1/2, "Fallback: " ++ toString (wordCount text)
              ++ " words - probably vague")) := by
  refine ⟨?_, ?_, ?_⟩
  · intro h
    exact ⟨by simp [classify_feedback_actionability, h],
      fun judge2 => by simp [classify_feedback_actionability, h]⟩
  · intro h hwc
    exact ⟨by simp [classify_feedback_actionability, h, hwc],
      fun judge2 => by simp [classify_feedback_actionability, h, hwc]⟩
  · intro h hwc e herr
    simp [classify_feedback_actionability, h, Nat.not_lt.mpr hwc, herr]

/-- Witness for C7: a whitespace-only text gives (false, 0, _); the
single-word text "חלש" gives (false, 1/10, _); and with a failing oracle the
three-word text "this is bad" falls back to (false, 1/2, _) while a six-word
text falls back to (true, 1/2, _), no error escaping in either case. -/
theorem classifier_spec_witness :
    classify_feedback_actionability (fun _ _ _ => .error "timeout") "  " "Tone" 2
      = (false, 0, "Empty feedback") ∧
    classify_feedback_actionability (fun _ _ _ => .error "timeout") "חלש" "Tone" 2
      = (false, 1/10, "Too short - likely vague") ∧
    classify_feedback_actionability (fun _ _ _ => .error "timeout") "this is bad" "Tone" 2
      = (false, 1/2, "Fallback: 3 words - probably vague") ∧
    classify_feedback_actionability (fun _ _ _ => .error "timeout")
        "the hook is missing entirely here" "Tone" 2
      = (true, 1/2, "Fallback: 6 words - probably actionable") := by
  refine ⟨?_, ?_, ?_, ?_⟩
  · exact ((classifier_spec (fun _ _ _ => .error "timeout") "  " "Tone" 2).1
      (by decide)).1
  · exact ((classifier_spec (fun _ _ _ => .error "timeout") "חלש" "Tone" 2).2.1
      (by decide) (by decide)).1
  · have h := (classifier_spec (fun _ _ _ => .error "timeout") "this is bad" "Tone" 2).2.2
      (by decide) (by decide) "timeout" rfl
    rw [h]
    rfl
  · have h := (classifier_spec (fun _ _ _ => .error "timeout")
      "the hook is missing entirely here" "Tone" 2).2.2
      (by decide) (by decide) "timeout" rfl
    rw [h]
    rfl

/-- C3: when `save_feedback` is called with an explicit status, the status is
lower-cased before persistence; whenever the lower-cased status is outside
the fixed set {pending, approved, rejected, flagged, pending_refinement,
skipped, discarded} the save fails with the validation error and nothing is
persisted (there is no `.ok` store), and otherwise the row is persisted with
exactly the lower-cased status. -/
theorem save_explicit_status_validation (store : List FeedbackRow)
    (a : SaveInput) (s : String) (now : Nat) (hs : a.status = some s) :
    (savedRow store a now).status = pyLower s ∧
    (valid_statuses.contains (pyLower s) = true →
      save_feedback store a now
        = .ok (store ++ [savedRow store a now], store.length)) ∧
    (valid_statuses.contains (pyLower s) = false →
      save_feedback store a now
        = .error "Invalid feedback data (constraint violation)") := by
  have hst : (savedRow store a now).status = pyLower s := by
    simp [savedRow, savedStatus, hs]
  refine ⟨hst, ?_, ?_⟩
  · intro h
    have hmem : pyLower s ∈ valid_statuses := by simpa using h
    simp [save_feedback, insertRow, hst, hmem]
  · intro h
    have hmem : pyLower s ∉ valid_statuses := by simpa using h
    simp [save_feedback, insertRow, hst, hmem]

/-- Witness for C3: an explicit status "APPROVED" is persisted as
"approved"; the explicit status "Bogus_Status" fails validation. -/
theorem save_explicit_status_validation_witness :
    (savedRow [] { category := "Tone", status := some "APPROVED" } 5).status
      = "approved" ∧
    save_feedback [] { category := "Tone", status := some "APPROVED" } 5
      = .ok ([savedRow [] { category := "Tone", status := some "APPROVED" } 5], 0) ∧
    save_feedback [] { category := "Tone", status := some "Bogus_Status" } 5
      = .error "Invalid feedback data (constraint violation)" := by
  have h1 := save_explicit_status_validation []
    { category := "Tone", status := some "APPROVED" } "APPROVED" 5 rfl
  have h2 := save_explicit_status_validation []
    { category := "Tone", status := some "Bogus_Status" } "Bogus_Status" 5 rfl
  exact ⟨h1.1.trans rfl, h1.2.1 (by decide), h2.2.2 (by decide)⟩

/-- C10: when `save_feedback` is called without an explicit status, the
persisted status is derived from the confidence score alone — `approved`
when confidence ≥ 8/10, `pending` when 5/10 ≤ confidence < 8/10, `flagged`
when confidence < 5/10 — and the save succeeds; the triage result plays no
part in this path. -/
theorem save_derived_status (store : List FeedbackRow) (a : SaveInput)
    (now : Nat) (hs : a.status = none) :
    (savedRow store a now).status =
      (if a.confidence_score ≥ 8/10 then "approved"
       else if a.confidence_score ≥ 5/10 then "pending"
       else "flagged") ∧
    save_feedback store a now
      = .ok (store ++ [savedRow store a now], store.length) := by
  have hst : (savedRow store a now).status =
      (if a.confidence_score ≥ 8/10 then "approved"
       else if a.confidence_score ≥ 5/10 then "pending"
       else "flagged") := by
    simp [savedRow, savedStatus, hs]
  refine ⟨hst, ?_⟩
  have hv : (savedRow store a now).status ∈ valid_statuses := by
    rw [hst]
    split
    · decide
    · split <;> decide
  simp [save_feedback, insertRow, hv]

/-- Witness for C10: confidence 9/10 persists as `approved`, 6/10 as
`pending`, 2/10 as `flagged`, and the 6/10 save succeeds. -/
theorem save_derived_status_witness :
    (savedRow [] { confidence_score := 9/10 } 3).status = "approved" ∧
    (savedRow [] { confidence_score := 6/10 } 3).status = "pending" ∧
    (savedRow [] { confidence_score := 2/10 } 3).status = "flagged" ∧
    save_feedback [] { confidence_score := 6/10 } 3
      = .ok ([savedRow [] { confidence_score := 6/10 } 3], 0) := by
  have h1 := save_derived_status [] { confidence_score := 9/10 } 3 rfl
  have h2 := save_derived_status [] { confidence_score := 6/10 } 3 rfl
  have h3 := save_derived_status [] { confidence_score := 2/10 } 3 rfl
  refine ⟨?_, ?_, ?_, h2.2⟩
  · rw [h1.1]; norm_num
  · rw [h2.1]; norm_num
  · rw [h3.1]; norm_num

/-- C4 (amended): every successful `update_status` — the path taken by
manual review and by all Refinement Lab exits — sets `reviewed_at` of the
addressed record to the time of that mutation, so after any sequence of such
mutations `reviewed_at` holds the most recent one; the auto-aging sweep
`auto_age_lab_items`, however, rewrites only `status` and `notes` and leaves
every row's `reviewed_at` unchanged. -/
theorem update_status_sets_reviewed_at (store : List FeedbackRow)
    (feedback_id : Nat) (new_status : String) (notes rd : Option String)
    (now : Nat) (hv : valid_statuses.contains (pyLower new_status) = true) :
    (∃ store2, update_status store feedback_id new_status notes rd now
        = .ok store2 ∧
      ∀ r ∈ store2, r.id = feedback_id → r.reviewed_at = some now) ∧
    ∀ days n2, ((auto_age_lab_items store days n2).1.map fun r => r.reviewed_at)
      = store.map fun r => r.reviewed_at := by
  have hmem : pyLower new_status ∈ valid_statuses := by simpa using hv
  constructor
  · have hupd : update_status store feedback_id new_status notes rd now
        = .ok (store.map fun r =>
            if r.id = feedback_id then
              { r with
                status := pyLower new_status
                reviewed_at := some now
                notes := notes
                refinement_data :=
                  match rd with
                  | some d => some d
                  | none => r.refinement_data }
            else r) := by
      simp [update_status, hmem]
    refine ⟨_, hupd, ?_⟩
    intro r hr hid
    rcases List.mem_map.mp hr with ⟨r0, _, hmap⟩
    subst hmap
    by_cases h0 : r0.id = feedback_id
    · simp [h0]
    · simp [h0] at hid
  · intro days n2
    simp only [auto_age_lab_items, List.map_map]
    apply List.map_congr_left
    intro r _
    by_cases h : agePred (n2 - days) r = true
    · simp [Function.comp, h]
    · simp [Function.comp, h]

/-- Witness for C4 (amended): updating the only record (old `reviewed_at`
some 1) at time 42 succeeds and stamps `reviewed_at = some 42`. -/
theorem update_status_sets_reviewed_at_witness :
    valid_statuses.contains (pyLower "Approved") = true ∧
    (∃ store2, update_status [{ id := 0, reviewed_at := some 1 }] 0 "Approved"
        none none 42 = .ok store2 ∧
      ∀ r ∈ store2, r.id = 0 → r.reviewed_at = some 42) :=
  ⟨by decide, (update_status_sets_reviewed_at [{ id := 0, reviewed_at := some 1 }]
    0 "Approved" none none 42 (by decide)).1⟩

/-- C4 counterexample: the auto-aging sweep is a status mutation (the stale
`pending_refinement` row becomes `skipped` and is counted), yet it leaves
`reviewed_at` at its old value `some 20` rather than the sweep time 100 — so
not every status mutation after creation sets `reviewed_at` to the time of
that mutation. -/
theorem auto_age_reviewed_at_counterexample :
    ((auto_age_lab_items
        [{ id := 0, status := "pending_refinement", lab_entry_date := some 10,
           reviewed_at := some 20 }] 7 100).1.map
      fun r => (r.status, r.reviewed_at)) = [("skipped", some 20)] ∧
    (auto_age_lab_items
        [{ id := 0, status := "pending_refinement", lab_entry_date := some 10,
           reviewed_at := some 20 }] 7 100).2 = 1 ∧
    (some 20 : Option Nat) ≠ some 100 := by
  exact ⟨rfl, rfl, by decide⟩

/-- C8: `get_lab_queue` returns only stored records with status
`pending_refinement` for the client (and agent type when given); the result
is sorted ascending by `(lab_entry_date, created_at)`; with a limit at least
the number of matching records it is a permutation of exactly the matching
records; in general it is the truncation of that full queue to the limit;
and whenever the sort keys of the matching records are pairwise distinct the
result is independent of the order in which records were inserted into the
store. -/
theorem get_lab_queue_spec (store : List FeedbackRow) (client_id : String)
    (agent_type : Option String) (limit : Nat) :
    List.Sorted labLe (get_lab_queue store client_id agent_type limit) ∧
    (∀ r ∈ get_lab_queue store client_id agent_type limit,
      r ∈ store ∧ labPred client_id agent_type r = true) ∧
    ((store.filter (labPred client_id agent_type)).length ≤ limit →
      (get_lab_queue store client_id agent_type limit).Perm
        (store.filter (labPred client_id agent_type))) ∧
    (get_lab_queue store client_id agent_type limit
      = (get_lab_queue store client_id agent_type
          (store.filter (labPred client_id agent_type)).length).take limit) ∧
    (∀ store2, store.Perm store2 →
      ((store.filter (labPred client_id agent_type)).map labKey).Nodup →
      get_lab_queue store client_id agent_type limit
        = get_lab_queue store2 client_id agent_type limit) := by
  refine ⟨?_, ?_, ?_, ?_, ?_⟩
  · exact List.Pairwise.sublist (List.take_sublist _ _)
      (List.sorted_insertionSort labLe _)
  · intro r hr
    have h1 : r ∈ (store.filter (labPred client_id agent_type)).insertionSort labLe :=
      (List.take_sublist _ _).subset hr
    have h2 : r ∈ store.filter (labPred client_id agent_type) :=
      (List.perm_insertionSort labLe _).subset h1
    exact ⟨(List.mem_filter.mp h2).1, (List.mem_filter.mp h2).2⟩
  · intro hlen
    have hq : get_lab_queue store client_id agent_type limit
        = (store.filter (labPred client_id agent_type)).insertionSort labLe := by
      unfold get_lab_queue
      exact List.take_of_length_le (by rw [List.length_insertionSort]; exact hlen)
    rw [hq]
    exact List.perm_insertionSort labLe _
  · unfold get_lab_queue
    have e : List.take (store.filter (labPred client_id agent_type)).length
          ((store.filter (labPred client_id agent_type)).insertionSort labLe)
        = (store.filter (labPred client_id agent_type)).insertionSort labLe :=
      List.take_of_length_le (le_of_eq (List.length_insertionSort _ _))
    rw [e]
  · intro store2 hperm hnodup
    unfold get_lab_queue
    have hpf : (store.filter (labPred client_id agent_type)).Perm
        (store2.filter (labPred client_id agent_type)) := hperm.filter _
    have hp12 : ((store.filter (labPred client_id agent_type)).insertionSort labLe).Perm
        ((store2.filter (labPred client_id agent_type)).insertionSort labLe) :=
      ((List.perm_insertionSort labLe _).trans hpf).trans
        (List.perm_insertionSort labLe _).symm
    have hstrict : ∀ t : List FeedbackRow, List.Sorted labLe t →
        (t.map labKey).Nodup → List.Sorted labLt t := by
      intro t hsort hnd
      have hne : t.Pairwise fun a b => labKey a ≠ labKey b :=
        List.pairwise_map.mp hnd
      exact (hsort.and hne).imp fun h => lt_of_le_of_ne h.1 h.2
    have hn1 : (((store.filter (labPred client_id agent_type)).insertionSort
        labLe).map labKey).Nodup :=
      (((List.perm_insertionSort labLe _).map labKey).nodup_iff).mpr hnodup
    have hn2 : (((store2.filter (labPred client_id agent_type)).insertionSort
        labLe).map labKey).Nodup :=
      (((List.perm_insertionSort labLe _).map labKey).nodup_iff).mpr
        (((hpf.map labKey).nodup_iff).mp hnodup)
    have heq : (store.filter (labPred client_id agent_type)).insertionSort labLe
        = (store2.filter (labPred client_id agent_type)).insertionSort labLe :=
      List.eq_of_perm_of_sorted hp12
        (hstrict _ (List.sorted_insertionSort labLe _) hn1)
        (hstrict _ (List.sorted_insertionSort labLe _) hn2)
    rw [heq]

/-- Witness for C8: three pending rows with lab dates 5 < 6 < 7 are returned
in that ascending order, and the queue over a permuted store is the same
list. -/
theorem get_lab_queue_spec_witness :
    get_lab_queue
        [{ id := 2, client_id := "c", status := "pending_refinement",
           lab_entry_date := some 6, created_at := 2 },
         { id := 3, client_id := "c", status := "pending_refinement",
           lab_entry_date := some 7, created_at := 3 },
         { id := 1, client_id := "c", status := "pending_refinement",
           lab_entry_date := some 5, created_at := 1 }] "c" none 10
      = get_lab_queue
        [{ id := 1, client_id := "c", status := "pending_refinement",
           lab_entry_date := some 5, created_at := 1 },
         { id := 2, client_id := "c", status := "pending_refinement",
           lab_entry_date := some 6, created_at := 2 },
         { id := 3, client_id := "c", status := "pending_refinement",
           lab_entry_date := some 7, created_at := 3 }] "c" none 10 ∧
    (get_lab_queue
        [{ id := 2, client_id := "c", status := "pending_refinement",
           lab_entry_date := some 6, created_at := 2 },
         { id := 3, client_id := "c", status := "pending_refinement",
           lab_entry_date := some 7, created_at := 3 },
         { id := 1, client_id := "c", status := "pending_refinement",
           lab_entry_date := some 5, created_at := 1 }] "c" none 10).map
      (fun r => r.id) = [1, 2, 3] := by
  refine ⟨(get_lab_queue_spec
      [{ id := 2, client_id := "c", status := "pending_refinement",
         lab_entry_date := some 6, created_at := 2 },
       { id := 3, client_id := "c", status := "pending_refinement",
         lab_entry_date := some 7, created_at := 3 },
       { id := 1, client_id := "c", status := "pending_refinement",
         lab_entry_date := some 5, created_at := 1 }] "c" none 10).2.2.2.2
      [{ id := 1, client_id := "c", status := "pending_refinement",
         lab_entry_date := some 5, created_at := 1 },
       { id := 2, client_id := "c", status := "pending_refinement",
         lab_entry_date := some 6, created_at := 2 },
       { id := 3, client_id := "c", status := "pending_refinement",
         lab_entry_date := some 7, created_at := 3 }] (by decide) (by decide),
    rfl⟩

/-- A scan whose matcher never fires anywhere in the text leaves the text
unchanged. -/
theorem reSubScan_no_match (m : List Char → Option (List Char))
    (repl : List Char) :
    ∀ (fuel : Nat) (l : List Char), hasMatch m l = false →
      reSubScan m repl fuel l = l := by
  intro fuel
  induction fuel with
  | zero => intro l _; rfl
  | succ n ih =>
    intro l h
    cases l with
    | nil => rfl
    | cons c t =>
      have hm : m (c :: t) = none := by
        cases hmm : m (c :: t) with
        | none => rfl
        | some r => simp [hasMatch, existsSuffix, hmm] at h
      have ht : hasMatch m t = false := by
        simp [hasMatch, existsSuffix] at h ⊢
        exact h.2
      simp [reSubScan, hm, ih t ht]

/-- A card scan over a text in which the card pattern never fires leaves
the text unchanged, whatever the boundary flag. -/
theorem reSubScanB_no_match (repl : List Char) :
    ∀ (fuel : Nat) (pw : Bool) (l : List Char), hasCardMatch l = false →
      reSubScanB matchCard repl fuel pw l = l := by
  intro fuel
  induction fuel with
  | zero => intro pw l _; rfl
  | succ n ih =>
    intro pw l h
    cases l with
    | nil => rfl
    | cons c t =>
      have hm : matchCard pw (c :: t) = none := by
        cases pw with
        | true => rfl
        | false =>
          cases hmm : matchCard false (c :: t) with
          | none => rfl
          | some r => simp [hasCardMatch, existsSuffix, hmm] at h
      have ht : hasCardMatch t = false := by
        simp [hasCardMatch, existsSuffix] at h ⊢
        exact h.2
      simp [reSubScanB, hm, ih (isWordChar c) t ht]

/-- C9 (amended): `sanitize_feedback` first truncates to 1000 characters;
whitespace-only input yields the empty string; if any injection pattern
matches the truncated text case-insensitively, the entire result is the
fixed placeholder; otherwise phone numbers, e-mail addresses and card-like
digit groups are replaced in place by the fixed placeholder tokens and —
beyond those replacements — the only further alteration is the stripping of
leading and trailing whitespace: a text free of all the patterns is returned
stripped but otherwise character-for-character unchanged. -/
theorem sanitize_feedback_characterization (text : String) :
    (wsOnly text = true → sanitize_feedback text = "") ∧
    (wsOnly text = false → hasInjection (text.toList.take 1000) = true →
      sanitize_feedback text = "[SANITIZED: Suspicious content removed]") ∧
    (wsOnly text = false → hasInjection (text.toList.take 1000) = false →
      sanitize_feedback text
        = String.mk (pyStrip (subCard (subEmail (subPhone
            (text.toList.take 1000)))))) ∧
    (wsOnly text = false → hasInjection (text.toList.take 1000) = false →
      hasMatch matchPhone (text.toList.take 1000) = false →
      hasMatch matchEmail (text.toList.take 1000) = false →
      hasCardMatch (text.toList.take 1000) = false →
      sanitize_feedback text = String.mk (pyStrip (text.toList.take 1000))) := by
  refine ⟨?_, ?_, ?_, ?_⟩
  · intro h
    simp [sanitize_feedback, h]
  · intro h hinj
    have hinj2 : hasInjection (List.take 1000 text.data) = true := hinj
    simp [sanitize_feedback, h, hinj2]
  · intro h hinj
    have hinj2 : hasInjection (List.take 1000 text.data) = false := hinj
    simp [sanitize_feedback, h, hinj2]
  · intro h hinj hp he hc
    have hinj2 : hasInjection (List.take 1000 text.data) = false := hinj
    have e1 : subPhone (List.take 1000 text.data) = List.take 1000 text.data :=
      reSubScan_no_match matchPhone _ _ _ hp
    have e2 : subEmail (List.take 1000 text.data) = List.take 1000 text.data :=
      reSubScan_no_match matchEmail _ _ _ he
    have e3 : subCard (List.take 1000 text.data) = List.take 1000 text.data :=
      reSubScanB_no_match _ _ _ _ hc
    simp [sanitize_feedback, h, hinj2]
    rw [e1, e2, e3]

/-- Counterexample to C9 as stated: the input " a " matches no injection
pattern and no PII pattern — no replacement happens — yet the result "a" has
lost the surrounding whitespace, so characters other than replaced PII spans
are altered (the final `strip`). -/
theorem sanitize_strip_counterexample :
    hasInjection " a ".toList = false ∧
    subPhone " a ".toList = " a ".toList ∧
    subEmail " a ".toList = " a ".toList ∧
    subCard " a ".toList = " a ".toList ∧
    sanitize_feedback " a " = "a" ∧
    (" a " : String) ≠ "a" := by
  exact ⟨rfl, rfl, rfl, rfl, rfl, by decide⟩

/-- Witness for C9 (amended): an injection phrase collapses to the fixed
placeholder; an e-mail is redacted in place with every other character kept;
a clean text comes back unchanged (nothing to strip, nothing to redact). -/
theorem sanitize_feedback_characterization_witness :
    sanitize_feedback "Please IGNORE  previous feedback"
      = "[SANITIZED: Suspicious content removed]" ∧
    sanitize_feedback "write to me bob@example.com today"
      = "write to me [EMAIL_REDACTED] today" ∧
    sanitize_feedback "no personal data here" = "no personal data here" := by
  refine ⟨?_, ?_, ?_⟩
  · exact (sanitize_feedback_characterization "Please IGNORE  previous feedback").2.1
      (by decide) (by decide)
  · have h := (sanitize_feedback_characterization
      "write to me bob@example.com today").2.2.1 (by decide) (by decide)
    rw [h]
    rfl
  · have h := (sanitize_feedback_characterization "no personal data here").2.2.2
      (by decide) (by decide) (by decide) (by decide) (by decide)
    rw [h]
    rfl

end FeedbackCore
